import Mathlib

/-!
Verification of the LangGame world-streaming core (src/main.py).

The Python source is shallowly embedded: each class method used by the
claims becomes a Lean function over explicit state.  Python machine-level
details map as follows:

* Python integers are `Int`; `x // n` (floor division) is `Int.fdiv`,
  `x % n` (floor modulo, sign of the divisor) is `Int.fmod`.
* The Python `random` module is a process-global PRNG.  Its algorithm
  (Mersenne Twister) is external library code, not part of this
  repository, so it is modelled abstractly by a `RandomImpl` record: a
  state type `Nat`, a seeding function, a step function and an output
  function.  Every definition that draws randomness is parameterised by
  the implementation and threads the state explicitly, reproducing the
  exact sequence of draws the source performs (including short-circuit
  conditions that skip a draw).  Theorems about generation are stated for
  every `RandomImpl`, so nothing depends on the stand-in distribution.
* `random.random() < p` compares a uniform float in `[0,1)` with a
  constant; it is modelled exactly as `out * den < num * 2^32` for the
  rational constant `num/den`, with the draw scaled to `[0, 2^32)`.
-/

namespace LangGame

/-- The two learnable languages of the game (`LANGUAGES` in the source). -/
inductive Language where
  | spanish
  | french
deriving DecidableEq

/-- The cell/object catalog `GAME_OBJECTS`: one immutable record per type. -/
inductive CellType where
  | tree
  | water
  | stone
  | house
  | grass
  | path
  | flower
  | mushroom
  | log
  | bush
  | rabbit
  | bird
deriving DecidableEq

/-- The `"name"` attribute of each catalog entry. -/
def CellType.name : CellType → String
  | .tree => "tree"
  | .water => "water"
  | .stone => "stone"
  | .house => "house"
  | .grass => "grass"
  | .path => "path"
  | .flower => "flower"
  | .mushroom => "mushroom"
  | .log => "log"
  | .bush => "bush"
  | .rabbit => "rabbit"
  | .bird => "bird"

/-- The `"english"` attribute of each catalog entry. -/
def CellType.english : CellType → String
  | .tree => "tree"
  | .water => "water"
  | .stone => "stone"
  | .house => "house"
  | .grass => "grass"
  | .path => "path"
  | .flower => "flower"
  | .mushroom => "mushroom"
  | .log => "log"
  | .bush => "bush"
  | .rabbit => "rabbit"
  | .bird => "bird"

/-- The per-language label attribute (`obj["spanish"]`, `obj["french"]`). -/
def CellType.label : CellType → Language → String
  | .tree, .spanish => "árbol"
  | .tree, .french => "arbre"
  | .water, .spanish => "agua"
  | .water, .french => "eau"
  | .stone, .spanish => "piedra"
  | .stone, .french => "pierre"
  | .house, .spanish => "casa"
  | .house, .french => "maison"
  | .grass, .spanish => "hierba"
  | .grass, .french => "herbe"
  | .path, .spanish => "camino"
  | .path, .french => "chemin"
  | .flower, .spanish => "flor"
  | .flower, .french => "fleur"
  | .mushroom, .spanish => "hongo"
  | .mushroom, .french => "champignon"
  | .log, .spanish => "tronco"
  | .log, .french => "bûche"
  | .bush, .spanish => "arbusto"
  | .bush, .french => "buisson"
  | .rabbit, .spanish => "conejo"
  | .rabbit, .french => "lapin"
  | .bird, .spanish => "pájaro"
  | .bird, .french => "oiseau"

/-- The `"passable"` attribute of each catalog entry. -/
def CellType.passable : CellType → Bool
  | .tree => false
  | .water => false
  | .stone => false
  | .house => false
  | .grass => true
  | .path => true
  | .flower => true
  | .mushroom => true
  | .log => false
  | .bush => false
  | .rabbit => true
  | .bird => true

/-- `CHUNK_SIZE` in the source. -/
def CHUNK_SIZE : Nat := 16

/-- `TILE_SIZE` in the source. -/
def TILE_SIZE : Nat := 32

/-- Abstract model of the Python `random` module (external stdlib code):
`seedOf x y` is the generator state after `random.seed(f"{x}-{y}")`,
`entropy` is the state after an argument-less `random.seed()` (OS
entropy, a fixed unknown), `next` advances the state by one draw and
`out` extracts a value in `[0, 2^32)` from a state. -/
structure RandomImpl where
  seedOf : Int → Int → Nat
  entropy : Nat
  next : Nat → Nat
  out : Nat → Nat

/-- One draw of `random.random()`, scaled to `[0, 2^32)`. -/
def RandomImpl.randFloat (impl : RandomImpl) (s : Nat) : Nat × Nat :=
  (impl.out s, impl.next s)

/-- Exact test `v / 2^32 < num / den` for a scaled draw `v`. -/
def floatLt (v num den : Nat) : Bool :=
  v * den < num * 4294967296

/-- One draw of `random.randint(a, b)` (inclusive bounds): a stand-in
distribution over `[a, b]` for the external stdlib routine. -/
def RandomImpl.randint (impl : RandomImpl) (a b s : Nat) : Nat × Nat :=
  (a + impl.out s % (b - a + 1), impl.next s)

/-- One draw of `random.choice` from a three-element list: the index. -/
def RandomImpl.choice3 (impl : RandomImpl) (s : Nat) : Nat × Nat :=
  (impl.out s % 3, impl.next s)

/-- A region grid: `CHUNK_SIZE` rows of `CHUNK_SIZE` cells. -/
abbrev Grid := List (List CellType)

/-- Read `self.tiles[y][x]` (all source reads are in range; the defaults
are unreachable for in-range indices). -/
def getCell (g : Grid) (y x : Int) : CellType :=
  if 0 ≤ y ∧ 0 ≤ x then (g.getD y.toNat []).getD x.toNat .grass else .grass

/-- Write `self.tiles[y][x] = c` (all source writes are in range). -/
def setTile (g : Grid) (y x : Int) (c : CellType) : Grid :=
  if 0 ≤ y ∧ 0 ≤ x then g.set y.toNat ((g.getD y.toNat []).set x.toNat c) else g

/-- Row-major traversal of the whole grid (`for y: for x:`), threading
the grid and the generator state through a per-cell step. -/
def boxFold (f : Grid × Nat → Int → Int → Grid × Nat) (gs : Grid × Nat) : Grid × Nat :=
  (List.range CHUNK_SIZE).foldl
    (fun a y => (List.range CHUNK_SIZE).foldl (fun b x => f b (y : Int) (x : Int)) a) gs

/-- The nine cells of a `3×3` neighborhood, in the source's scan order
(`ny` outer from `y-1`, `nx` inner from `x-1`). -/
def neighborOffsets : List (Int × Int) :=
  [(-1, -1), (-1, 0), (-1, 1), (0, -1), (0, 0), (0, 1), (1, -1), (1, 0), (1, 1)]

/-- Whether a cell of the given type exists in the (boundary-clamped)
`3×3` neighborhood of `(x, y)`: the source's `has_path_nearby` /
`tree_nearby` scans (early `break` does not change the result and the
scan draws no randomness). -/
def nearbyHas (g : Grid) (y x : Int) (c : CellType) : Bool :=
  neighborOffsets.any fun d =>
    let ny := y + d.1
    let nx := x + d.2
    if 0 ≤ ny ∧ ny < 16 ∧ 0 ≤ nx ∧ nx < 16 then getCell g ny nx == c else false

/-- `Chunk.generate_path`: stamp a full path row and/or column. -/
def setRow (g : Grid) (y : Int) : Grid :=
  (List.range CHUNK_SIZE).foldl (fun acc x => setTile acc y (x : Int) .path) g

/-- Column analogue of `setRow` for `Chunk.generate_path`. -/
def setCol (g : Grid) (x : Int) : Grid :=
  (List.range CHUNK_SIZE).foldl (fun acc y => setTile acc (y : Int) x .path) g

/-- `Chunk.generate_path`: choose horizontal (0), vertical (1) or both
(2); a chosen orientation stamps one full row/column at an index drawn
from the middle half `[4, 12]` of the region. -/
def generatePath (impl : RandomImpl) (g : Grid) (s : Nat) : Grid × Nat :=
  let c := impl.choice3 s
  let t2 :=
    if c.1 = 0 ∨ c.1 = 2 then
      let r := impl.randint 4 12 c.2
      (setRow g (r.1 : Int), r.2)
    else (g, c.2)
  if c.1 = 1 ∨ c.1 = 2 then
    let r := impl.randint 4 12 t2.2
    (setCol t2.1 (r.1 : Int), r.2)
  else t2

/-- Per-cell body of a tree cluster in `Chunk.generate_trees`: inside the
cluster's bounding box, a cell still holding grass draws once and turns
into a tree when the draw is below 0.6 and the cell is inside the
cluster radius. -/
def treeClusterStep (impl : RandomImpl) (cx cy r : Int)
    (gs : Grid × Nat) (y x : Int) : Grid × Nat :=
  if max 0 (cy - r) ≤ y ∧ y < min 16 (cy + r) ∧
      max 0 (cx - r) ≤ x ∧ x < min 16 (cx + r) then
    if getCell gs.1 y x ≠ .grass then gs
    else
      let (v, t) := impl.randFloat gs.2
      if floatLt v 6 10 ∧ (x - cx) ^ 2 + (y - cy) ^ 2 ≤ r ^ 2 then
        (setTile gs.1 y x .tree, t)
      else (gs.1, t)
  else gs

/-- `Chunk.generate_trees`: 1-3 clusters, each with an interior center
and radius 2-4, filled by `treeClusterStep`. -/
def generateTrees (impl : RandomImpl) (g : Grid) (s : Nat) : Grid × Nat :=
  let (n, s1) := impl.randint 1 3 s
  (List.range n).foldl
    (fun gs _ =>
      let (cx, t1) := impl.randint 2 13 gs.2
      let (cy, t2) := impl.randint 2 13 t1
      let (r, t3) := impl.randint 2 4 t2
      boxFold (treeClusterStep impl (cx : Int) (cy : Int) (r : Int)) (gs.1, t3))
    (g, s1)

/-- Per-cell body of the water blob in `Chunk.generate_water`: every cell
of the bounding box draws once and becomes water when the draw is below
0.7 and the cell is inside the radius (overwriting any cell type). -/
def waterStep (impl : RandomImpl) (cx cy r : Int)
    (gs : Grid × Nat) (y x : Int) : Grid × Nat :=
  if max 0 (cy - r) ≤ y ∧ y < min 16 (cy + r) ∧
      max 0 (cx - r) ≤ x ∧ x < min 16 (cx + r) then
    let (v, t) := impl.randFloat gs.2
    if floatLt v 7 10 ∧ (x - cx) ^ 2 + (y - cy) ^ 2 ≤ r ^ 2 then
      (setTile gs.1 y x .water, t)
    else (gs.1, t)
  else gs

/-- `Chunk.generate_water`: one blob with center in `[3, 12]` and radius
2-5. -/
def generateWater (impl : RandomImpl) (g : Grid) (s : Nat) : Grid × Nat :=
  let (cx, s1) := impl.randint 3 12 s
  let (cy, s2) := impl.randint 3 12 s1
  let (r, s3) := impl.randint 2 5 s2
  boxFold (waterStep impl (cx : Int) (cy : Int) (r : Int)) (g, s3)

/-- Flower decoration around a freshly placed house: each neighboring
grass cell draws once and becomes a flower when the draw is below 0.4. -/
def flowerStep (impl : RandomImpl) (hx hy : Int)
    (gs : Grid × Nat) (d : Int × Int) : Grid × Nat :=
  let ny := hy + d.1
  let nx := hx + d.2
  if 0 ≤ ny ∧ ny < 16 ∧ 0 ≤ nx ∧ nx < 16 then
    if (nx ≠ hx ∨ ny ≠ hy) ∧ getCell gs.1 ny nx = .grass then
      let (v, t) := impl.randFloat gs.2
      if floatLt v 4 10 then (setTile gs.1 ny nx .flower, t) else (gs.1, t)
    else gs
  else gs

/-- The attempt loop for one house in `Chunk.generate_houses`: up to 10
attempts; a position is accepted when a path is in its `3×3` neighborhood
or more than 5 attempts have passed, and the cell is not water/path/house;
placement also decorates neighbors with flowers and stops the loop. -/
def houseAttempts (impl : RandomImpl) (fuel : Nat) (g : Grid) (s : Nat) : Grid × Nat :=
  match fuel with
  | 0 => (g, s)
  | f + 1 =>
    let attempt : Nat := 10 - (f + 1)
    let (x, s1) := impl.randint 1 14 s
    let (y, s2) := impl.randint 1 14 s1
    let xi : Int := (x : Int)
    let yi : Int := (y : Int)
    let hasPathNearby := nearbyHas g yi xi .path
    if (hasPathNearby = true ∨ attempt > 5) ∧
        getCell g yi xi ∉ [CellType.water, CellType.path, CellType.house] then
      neighborOffsets.foldl (flowerStep impl xi yi) (setTile g yi xi .house, s2)
    else houseAttempts impl f g s2

/-- `Chunk.generate_houses`: 0-3 houses, each placed by `houseAttempts`. -/
def generateHouses (impl : RandomImpl) (g : Grid) (s : Nat) : Grid × Nat :=
  let (n, s1) := impl.randint 0 3 s
  (List.range n).foldl (fun gs _ => houseAttempts impl 10 gs.1 gs.2) (g, s1)

/-- The attempt loop for one log in `Chunk.generate_forest_elements`: up
to 5 attempts; accepted on grass when a tree is nearby or more than 3
attempts have passed. -/
def logAttempts (impl : RandomImpl) (fuel : Nat) (g : Grid) (s : Nat) : Grid × Nat :=
  match fuel with
  | 0 => (g, s)
  | f + 1 =>
    let attempt : Nat := 5 - (f + 1)
    let (x, s1) := impl.randint 0 15 s
    let (y, s2) := impl.randint 0 15 s1
    let treeNearby := nearbyHas g (y : Int) (x : Int) .tree
    if (treeNearby = true ∨ attempt > 3) ∧ getCell g (y : Int) (x : Int) = .grass then
      (setTile g (y : Int) (x : Int) .log, s2)
    else logAttempts impl f g s2

/-- First-grass-cell placement loop (5 attempts) shared by bushes and
rabbits in the source. -/
def grassAttempts (impl : RandomImpl) (c : CellType) (fuel : Nat)
    (g : Grid) (s : Nat) : Grid × Nat :=
  match fuel with
  | 0 => (g, s)
  | f + 1 =>
    let (x, s1) := impl.randint 0 15 s
    let (y, s2) := impl.randint 0 15 s1
    if getCell g (y : Int) (x : Int) = .grass then (setTile g (y : Int) (x : Int) c, s2)
    else grassAttempts impl c f g s2

/-- `Chunk.generate_forest_elements`: 0-3 logs then 1-5 bushes. -/
def generateForestElements (impl : RandomImpl) (g : Grid) (s : Nat) : Grid × Nat :=
  let (nLogs, s1) := impl.randint 0 3 s
  let gs2 := (List.range nLogs).foldl (fun gs _ => logAttempts impl 5 gs.1 gs.2) (g, s1)
  let (nBushes, s3) := impl.randint 1 5 gs2.2
  (List.range nBushes).foldl (fun gs _ => grassAttempts impl .bush 5 gs.1 gs.2) (gs2.1, s3)

/-- The attempt loop for one bird in `Chunk.generate_animals`: an in-tree
bird must land on a tree cell, a ground bird on grass; 5 attempts. -/
def birdAttempts (impl : RandomImpl) (inTree : Bool) (fuel : Nat)
    (g : Grid) (s : Nat) : Grid × Nat :=
  match fuel with
  | 0 => (g, s)
  | f + 1 =>
    let (x, s1) := impl.randint 0 15 s
    let (y, s2) := impl.randint 0 15 s1
    if inTree = true ∧ getCell g (y : Int) (x : Int) = .tree then
      (setTile g (y : Int) (x : Int) .bird, s2)
    else if inTree = false ∧ getCell g (y : Int) (x : Int) = .grass then
      (setTile g (y : Int) (x : Int) .bird, s2)
    else birdAttempts impl inTree f g s2

/-- `Chunk.generate_animals`: 0-2 rabbits on grass, then 0-2 birds, each
independently 50% in-tree. -/
def generateAnimals (impl : RandomImpl) (g : Grid) (s : Nat) : Grid × Nat :=
  let (nRabbits, s1) := impl.randint 0 2 s
  let gs2 := (List.range nRabbits).foldl
    (fun gs _ => grassAttempts impl .rabbit 5 gs.1 gs.2) (g, s1)
  let (nBirds, s3) := impl.randint 0 2 gs2.2
  (List.range nBirds).foldl
    (fun gs _ =>
      let (v, t1) := impl.randFloat gs.2
      birdAttempts impl (floatLt v 1 2) 5 gs.1 t1)
    (gs2.1, s3)

/-- `Chunk.generate_features`: the fixed feature pipeline.  Draw
consumption mirrors the source exactly, including the short-circuited
`or` guarding houses (the 0.2 draw happens only when the coordinate test
fails). -/
def generateFeatures (impl : RandomImpl) (cx cy : Int) (g : Grid) (s : Nat) : Grid × Nat :=
  let t1 := if cx.natAbs ≤ 2 ∨ cy.natAbs ≤ 2 then generatePath impl g s else (g, s)
  let r1 := impl.randFloat t1.2
  let t2 := if floatLt r1.1 7 10 then generateTrees impl t1.1 r1.2 else (t1.1, r1.2)
  let r2 := impl.randFloat t2.2
  let t3 := if floatLt r2.1 4 10 then generateWater impl t2.1 r2.2 else (t2.1, r2.2)
  let h :=
    if cx.natAbs ≤ 3 ∧ cy.natAbs ≤ 3 then (true, t3.2)
    else
      let r3 := impl.randFloat t3.2
      (floatLt r3.1 2 10, r3.2)
  let t4 := if h.1 then generateHouses impl t3.1 h.2 else (t3.1, h.2)
  let r4 := impl.randFloat t4.2
  let t5 := if floatLt r4.1 6 10 then generateForestElements impl t4.1 r4.2 else (t4.1, r4.2)
  let r5 := impl.randFloat t5.2
  if floatLt r5.1 4 10 then generateAnimals impl t5.1 r5.2 else (t5.1, r5.2)

/-- `Chunk.generate_tiles`: start from an all-grass grid, reseed the
global generator from the chunk coordinate alone (so the incoming
generator state `s` is discarded, exactly as `random.seed(f"{x}-{y}")`
overwrites it), run the feature pipeline, then reseed from OS entropy
(`random.seed()`).  Returns the grid and the post-call global state. -/
def generateTiles (impl : RandomImpl) (cx cy : Int) (_s : Nat) : Grid × Nat :=
  let g := List.replicate CHUNK_SIZE (List.replicate CHUNK_SIZE CellType.grass)
  let s1 := impl.seedOf cx cy
  ((generateFeatures impl cx cy g s1).1, impl.entropy)

/-- A placed entity (`GameObject` in the source): pixel position, a
reference to its catalog cell type, the three mutable interaction flags
and the per-entity `variation` scalar (a `random.random()` draw at
creation; modelled by the raw scaled draw, never read by any claim). -/
structure GameObject where
  x : Int
  y : Int
  objType : CellType
  revealed : Bool
  translationShown : Bool
  mastered : Bool
  variation : Nat
deriving DecidableEq

/-- `GameObject.__init__`: both display flags and `mastered` start
`False`. -/
def GameObject.init (x y : Int) (t : CellType) (v : Nat) : GameObject :=
  { x := x, y := y, objType := t, revealed := false, translationShown := false,
    mastered := false, variation := v }

/-- `GameObject.get_tile_position`: floor-divide the pixel position by
`TILE_SIZE`. -/
def GameObject.getTilePosition (o : GameObject) : Int × Int :=
  (o.x.fdiv 32, o.y.fdiv 32)

/-- `GameObject.toggle_translation`. -/
def GameObject.toggleTranslation (o : GameObject) : GameObject :=
  { o with translationShown := !o.translationShown }

/-- A region (`Chunk` in the source): its coordinate, its generated grid
and its lazily built entity list (empty until `create_game_objects`). -/
structure Chunk where
  chunkX : Int
  chunkY : Int
  tiles : Grid
  objects : List GameObject
deriving DecidableEq

/-- `Chunk.__init__`: generate the grid immediately; the entity list
starts empty.  The ambient global generator state is passed as
`impl.entropy`; `generateTiles` discards it (see the determinism
theorem), so this choice is immaterial. -/
def Chunk.create (impl : RandomImpl) (cx cy : Int) : Chunk :=
  { chunkX := cx, chunkY := cy, tiles := (generateTiles impl cx cy impl.entropy).1,
    objects := [] }

/-- `Chunk.get_tile`: in-bounds guard, then grid indexing.  The inner
`Option.bind` marks the would-be `IndexError` of Python list indexing; it
is unreachable for well-formed 16×16 grids (proved for claim C10). -/
def Chunk.getTile (c : Chunk) (lx ly : Int) : Option CellType :=
  if 0 ≤ lx ∧ lx < 16 ∧ 0 ≤ ly ∧ ly < 16 then
    (c.tiles.get? ly.toNat).bind fun row => row.get? lx.toNat
  else none

/-- `Chunk.get_world_position`. -/
def Chunk.getWorldPosition (c : Chunk) (lx ly : Int) : Int × Int :=
  (c.chunkX * 16 + lx, c.chunkY * 16 + ly)

/-- `Chunk.create_game_objects`: one entity per grid cell, row-major,
each drawing its `variation` from the global generator. -/
def Chunk.createGameObjects (impl : RandomImpl) (c : Chunk) (s : Nat) : Chunk × Nat :=
  let r := (List.range CHUNK_SIZE).foldl
    (fun (acc : List GameObject × Nat) y =>
      (List.range CHUNK_SIZE).foldl
        (fun (acc2 : List GameObject × Nat) x =>
          let wp := c.getWorldPosition (x : Int) (y : Int)
          let cell := getCell c.tiles (y : Int) (x : Int)
          let (v, t) := impl.randFloat acc2.2
          (acc2.1 ++ [GameObject.init (wp.1 * 32) (wp.2 * 32) cell v], t))
        acc)
    ([], s)
  ({ c with objects := r.1 }, r.2)

/-- `tile_x // CHUNK_SIZE` in `World.get_tile` (Python floor division). -/
def regionOf (t : Int) : Int := t.fdiv 16

/-- `tile_x % CHUNK_SIZE` in `World.get_tile` (Python floor modulo). -/
def localOf (t : Int) : Int := t.fmod 16

/-- The world index (`World` in the source): the chunk cache as an
association list keyed by region coordinate, plus the active set. -/
structure World where
  chunks : List ((Int × Int) × Chunk)
  activeChunks : List (Int × Int)
  renderDistance : Nat
deriving DecidableEq

/-- `World.__init__`. -/
def World.initial : World :=
  { chunks := [], activeChunks := [], renderDistance := 2 }

/-- Dictionary lookup in the chunk cache. -/
def lookupChunk (l : List ((Int × Int) × Chunk)) (k : Int × Int) : Option Chunk :=
  (l.find? (fun e => e.1 == k)).map (fun e => e.2)

/-- `World.get_chunk`: return the cached chunk, or generate, cache and
return a new one. -/
def World.getChunk (impl : RandomImpl) (w : World) (cx cy : Int) : Chunk × World :=
  match lookupChunk w.chunks (cx, cy) with
  | some c => (c, w)
  | none =>
    let c := Chunk.create impl cx cy
    (c, { w with chunks := ((cx, cy), c) :: w.chunks })

/-- `World.get_tile`: split the tile coordinate into region and local
coordinates, materialize the owning chunk, and index its grid. -/
def World.getTile (impl : RandomImpl) (w : World) (tx ty : Int) : Option CellType × World :=
  let r := w.getChunk impl (regionOf tx) (regionOf ty)
  (r.1.getTile (localOf tx) (localOf ty), r.2)

/-- `World.is_tile_passable`: the cell's `passable` attribute (every
catalog entry defines it, so the `.get("passable", True)` default is
never consulted); an unresolvable tile is fail-safe impassable. -/
def World.isTilePassable (impl : RandomImpl) (w : World) (tx ty : Int) : Bool × World :=
  let r := w.getTile impl tx ty
  match r.1 with
  | some cell => (cell.passable, r.2)
  | none => (false, r.2)

/-- `World.get_object_at_tile`: resolve the owning region among cached
chunks only (`if chunk_key in self.chunks` — a read-only membership test,
never `get_chunk`, so no chunk is ever generated here) and linear-scan
its entity list for a tile-position match. -/
def World.getObjectAtTile (w : World) (tx ty : Int) : Option GameObject :=
  match lookupChunk w.chunks (regionOf tx, regionOf ty) with
  | none => none
  | some c => c.objects.find? (fun o => o.getTilePosition == (tx, ty))

/-- Synthetic cache eviction, from the spec's determinism test scenario
(the source never evicts): drop one region from the cache. -/
def World.evict (w : World) (cx cy : Int) : World :=
  { w with chunks := w.chunks.filter (fun e => !(e.1 == (cx, cy))) }

/-- One ledger record of `Player.words_learned[language][name]`. -/
structure WordEntry where
  word : String
  english : String
  views : Nat
  mastered : Bool
deriving DecidableEq

/-- The nested `defaultdict` ledger, flattened to an association list
keyed by (language, type name). -/
abbrev Ledger := List ((Language × String) × WordEntry)

/-- Dictionary lookup: `name in self.words_learned[language]` /
`self.words_learned[language][name]`. -/
def Ledger.find (l : Ledger) (k : Language × String) : Option WordEntry :=
  (List.find? (fun e => e.1 == k) l).map (fun e => e.2)

/-- Dictionary write `self.words_learned[language][name] = entry`
(in-place update when the key exists, append otherwise). -/
def Ledger.store (l : Ledger) (k : Language × String) (v : WordEntry) : Ledger :=
  match l with
  | [] => [(k, v)]
  | e :: rest => if e.1 == k then (k, v) :: rest else e :: Ledger.store rest k v

/-- The four facing directions (`DIRECTION_UP` … `DIRECTION_LEFT`). -/
inductive Dir where
  | up
  | right
  | down
  | left
deriving DecidableEq

/-- The actor (`Player` in the source): pixel position, speed tiers,
score, the learning ledger, facing, derived tile/chunk coordinates, the
camera offset mirror, the transient interaction target and the
interaction range.  (Pure rendering/animation bookkeeping fields are
outside every claim and omitted.  The source sets `interaction_range`
lazily in `update_interaction_target`, always to 150; it is carried here
as a player field with that value from the start.) -/
structure Player where
  x : Int
  y : Int
  normalSpeed : Int
  sprintSpeed : Int
  speed : Int
  score : Int
  wordsLearned : Ledger
  direction : Dir
  tileX : Int
  tileY : Int
  chunkX : Int
  chunkY : Int
  cameraOffsetX : Int
  cameraOffsetY : Int
  interactionTarget : Option GameObject
  interactionRange : Int
deriving DecidableEq

/-- `Player.__init__(x, y)`. -/
def Player.init (x y : Int) : Player :=
  { x := x, y := y, normalSpeed := 3, sprintSpeed := 8, speed := 3, score := 0,
    wordsLearned := [], direction := .down,
    tileX := x.fdiv 32, tileY := y.fdiv 32,
    chunkX := (x.fdiv 32).fdiv 16, chunkY := (y.fdiv 32).fdiv 16,
    cameraOffsetX := 0, cameraOffsetY := 0, interactionTarget := none,
    interactionRange := 150 }

/-- The delta-based facing update of `Player.move` (lines 367-375):
`dx` is tested first, so a nonzero `dx` decides the direction regardless
of `dy`; both deltas zero leave the direction unchanged.  This write is
transient: `update_interaction_target` at the end of `move` overwrites
the direction from the pointer. -/
def moveDirection (dx dy : Int) (d : Dir) : Dir :=
  if dx > 0 then .right
  else if dx < 0 then .left
  else if dy > 0 then .down
  else if dy < 0 then .up
  else d

/-- The pointer-derived facing rule of `get_facing_tile_position`
(lines 648-658): the x-axis decides (by sign) when its pointer offset
strictly dominates in magnitude, otherwise the y-axis decides —
positive `dy` gives down, anything else (including ties and a zero
offset) gives up. -/
def pointerDirection (dx dy : Int) : Dir :=
  if dx.natAbs > dy.natAbs then (if dx > 0 then .right else .left)
  else if dy > 0 then .down
  else .up

/-- `Player.get_facing_tile_position` (lines 634-664): the mouse
position is an external input; add the camera offset to get the
world-space pointer, overwrite the facing direction from the pointer's
offset to the actor center, and return the pointer's tile. -/
def Player.getFacingTilePosition (p : Player) (mouseX mouseY : Int) :
    Player × Int × Int :=
  let worldMouseX := mouseX + p.cameraOffsetX
  let worldMouseY := mouseY + p.cameraOffsetY
  let dxm := worldMouseX - (p.x + 16)
  let dym := worldMouseY - (p.y + 16)
  ({ p with direction := pointerDirection dxm dym },
    worldMouseX.fdiv 32, worldMouseY.fdiv 32)

/-- `Player.update_interaction_target` (lines 403-409): recompute the
facing tile from the pointer (overwriting the facing direction as a
side effect), store the entity under the pointer as the interaction
target, and (re)store `interaction_range = 150`. -/
def Player.updateInteractionTarget (p : Player) (w : World) (mouseX mouseY : Int) :
    Player :=
  let r := p.getFacingTilePosition mouseX mouseY
  { r.1 with
      interactionTarget := w.getObjectAtTile r.2.1 r.2.2, interactionRange := 150 }

/-- `Player.move(dx, dy, world, is_sprinting)`: select the speed tier,
set the facing from the delta, compute the combined tentative
destination and its tile, commit position and derived tile/chunk
coordinates only when that single combined tile is passable, and
finally call `update_interaction_target` (line 401), which overwrites
the facing from the pointer position (an external input, passed here as
`mouseX`/`mouseY`).  (The screen-size locals at lines 381-383 are
computed and never used; animation counters are rendering bookkeeping
outside the claims.) -/
def Player.move (impl : RandomImpl) (p : Player) (dx dy : Int) (w : World)
    (isSprinting : Bool) (mouseX mouseY : Int) : Player × World :=
  let speed := if isSprinting then p.sprintSpeed else p.normalSpeed
  let dir := moveDirection dx dy p.direction
  let newX := p.x + dx
  let newY := p.y + dy
  let newTileX := newX.fdiv 32
  let newTileY := newY.fdiv 32
  let r := w.isTilePassable impl newTileX newTileY
  let w2 := r.2
  let p2 :=
    if r.1 then
      { p with
          speed := speed, direction := dir, x := newX, y := newY,
          tileX := newTileX, tileY := newTileY,
          chunkX := newTileX.fdiv 16, chunkY := newTileY.fdiv 16 }
    else
      { p with speed := speed, direction := dir }
  (p2.updateInteractionTarget w2 mouseX mouseY, w2)

/-- `Player.learn_word(obj_type, language)`: create a fresh entry with
one view and a +10 first-view bonus, or increment the view count and
award +50 on crossing the mastery threshold (5 views, not yet mastered),
+2 while unmastered below it, and nothing once mastered.  Returns the
updated player and the resulting ledger entry. -/
def Player.learnWord (p : Player) (t : CellType) (lang : Language) : Player × WordEntry :=
  let key := (lang, t.name)
  match Ledger.find p.wordsLearned key with
  | none =>
    let e : WordEntry :=
      { word := t.label lang, english := t.english, views := 1, mastered := false }
    ({ p with
        wordsLearned := Ledger.store p.wordsLearned key e,
        score := p.score + 10 }, e)
  | some e0 =>
    let e1 : WordEntry := { e0 with views := e0.views + 1 }
    if e1.views ≥ 5 ∧ e0.mastered = false then
      let e2 : WordEntry := { e1 with mastered := true }
      ({ p with
          wordsLearned := Ledger.store p.wordsLearned key e2,
          score := p.score + 50 }, e2)
    else if e0.mastered = false then
      ({ p with
          wordsLearned := Ledger.store p.wordsLearned key e1,
          score := p.score + 2 }, e1)
    else
      ({ p with wordsLearned := Ledger.store p.wordsLearned key e1 }, e1)

/-- Iterated reveal of the same type in the same language (the spec's
scenario C drives `learn_word` five times). -/
def Player.learnWordN (p : Player) (t : CellType) (lang : Language) : Nat → Player
  | 0 => p
  | n + 1 => ((Player.learnWordN p t lang n).learnWord t lang).1

/-- `Player.get_mastery_percentage` as an exact rational: 0 with no
entries, else mastered/total × 100. -/
def Player.getMasteryPercentage (p : Player) (lang : Language) : ℚ :=
  let entries := p.wordsLearned.filter (fun e => e.1.1 == lang)
  if entries.length = 0 then 0
  else ((entries.filter (fun e => e.2.mastered)).length : ℚ) / (entries.length : ℚ) * 100

/-- The `mastered` test of `GameObject.draw` (lines 1920-1926): the
ledger is consulted read-through for the current language; a missing
entry counts as unmastered. -/
def ledgerMastered (l : Ledger) (lang : Language) (name : String) : Bool :=
  match Ledger.find l (lang, name) with
  | some e => e.mastered
  | none => false

/-- The only write to `GameObject.mastered` in the source (line 1927,
inside `draw`): set it to `True` when the ledger entry for the current
language is mastered; never reset. -/
def GameObject.drawMasteredUpdate (o : GameObject) (lang : Language) (l : Ledger) :
    GameObject :=
  if ledgerMastered l lang o.objType.name then { o with mastered := true } else o

/-- The parse result of `save_game.json`, field-by-field optional: each
`none` is a key missing from the JSON object.  (`window_mode` only
drives display setup, outside the core.) -/
structure RawSave where
  score : Option Int
  wordsLearned : Option Ledger
  posX : Option Int
  posY : Option Int
  settingsLanguage : Option Language
deriving DecidableEq

/-- The three relevant states of the persisted file: absent
(`FileNotFoundError`), unparseable (`json.JSONDecodeError`), or parsed
into a `RawSave`. -/
inductive SaveFile where
  | missing
  | invalidJson
  | parsed (d : RawSave)
deriving DecidableEq

/-- An uncaught Python exception escaping `load_progress`. -/
inductive LoadError where
  | keyError
deriving DecidableEq

/-- The state `Game.load_progress` establishes: the player and the
selected language. -/
structure LoadResult where
  player : Player
  targetLanguage : Language
deriving DecidableEq

/-- The fresh default state when nothing is loaded: `Player(0, 0)` (from
`Game.__init__`) and the default language `"spanish"`. -/
def freshLoadResult : LoadResult :=
  { player := Player.init 0 0, targetLanguage := .spanish }

/-- `Game.load_progress` (with the `Game.__init__` fallback to
`Player(0, 0)`): the `try` block reads `position` via `.get` with
defaults, then subscripts `save_data["score"]` and
`save_data["words_learned"]` directly — a missing key there raises
`KeyError`, which the `except (FileNotFoundError, json.JSONDecodeError)`
clause does not catch, so it propagates.  `settings`/`language` fall back
to `"spanish"` via `.get`. -/
def Game.loadProgress (f : SaveFile) : Except LoadError LoadResult :=
  match f with
  | .missing => .ok freshLoadResult
  | .invalidJson => .ok freshLoadResult
  | .parsed d =>
    let px := d.posX.getD 0
    let py := d.posY.getD 0
    let p := Player.init px py
    match d.score with
    | none => .error .keyError
    | some sc =>
      match d.wordsLearned with
      | none => .error .keyError
      | some led =>
        .ok { player := { p with score := sc, wordsLearned := led },
              targetLanguage := d.settingsLanguage.getD .spanish }

/-- Replace the first list element satisfying the predicate: the
observable effect of Python mutating the aliased object that
`find`/linear scan returned. -/
def replaceFirst (l : List GameObject) (pred : GameObject → Bool) (o : GameObject) :
    List GameObject :=
  match l with
  | [] => []
  | a :: rest => if pred a then o :: rest else a :: replaceFirst rest pred o

/-- Write back a mutated entity into its owning chunk's entity list (the
in-place mutation of the object `get_object_at_tile` aliased). -/
def World.setObjectAtTile (w : World) (tx ty : Int) (o : GameObject) : World :=
  { w with
      chunks := w.chunks.map (fun e =>
        if e.1 == (regionOf tx, regionOf ty) then
          (e.1, { e.2 with
                    objects := replaceFirst e.2.objects
                      (fun ob => ob.getTilePosition == (tx, ty)) o })
        else e) }

/-- The game-level state touched by `Game.handle_mouse_interaction`. -/
structure Game where
  world : World
  player : Player
  targetLanguage : Language
  currentWordData : Option WordEntry
  showWordDisplay : Bool
  wordDisplayTimer : Nat
  wordDisplayShowingTranslation : Bool
  cameraX : Int
  cameraY : Int
deriving DecidableEq

/-- `Game.handle_mouse_interaction`: convert the click to world space;
proceed only when the Euclidean distance from the player center is at
most `interaction_range` (the float comparison
`sqrt(dx^2+dy^2) <= r` is modelled exactly by `dx^2+dy^2 <= r^2`,
equivalent for integer inputs of this magnitude since square roots of
integers near `r^2` are far beyond one ulp from `r`).  In range: resolve
the entity; absent is a no-op; an unrevealed entity is revealed and
learned; a revealed one toggles its translation and re-displays its
ledger entry when one exists. -/
def Game.handleMouseInteraction (g : Game) (mouseX mouseY : Int) : Game :=
  let worldMouseX := mouseX + g.cameraX
  let worldMouseY := mouseY + g.cameraY
  let playerCenterX := g.player.x + 16
  let playerCenterY := g.player.y + 16
  if (worldMouseX - playerCenterX) ^ 2 + (worldMouseY - playerCenterY) ^ 2 ≤
      g.player.interactionRange ^ 2 then
    let tileX := worldMouseX.fdiv 32
    let tileY := worldMouseY.fdiv 32
    match g.world.getObjectAtTile tileX tileY with
    | none => g
    | some obj =>
      if obj.revealed then
        let obj2 := obj.toggleTranslation
        let w2 := g.world.setObjectAtTile tileX tileY obj2
        match Ledger.find g.player.wordsLearned (g.targetLanguage, obj.objType.name) with
        | some wd =>
          { g with
              world := w2, currentWordData := some wd, showWordDisplay := true,
              wordDisplayTimer := 180,
              wordDisplayShowingTranslation := obj2.translationShown }
        | none => { g with world := w2 }
      else
        let obj2 : GameObject := { obj with revealed := true }
        let w2 := g.world.setObjectAtTile tileX tileY obj2
        let r := g.player.learnWord obj.objType g.targetLanguage
        { g with
            world := w2, player := r.1, currentWordData := some r.2,
            showWordDisplay := true, wordDisplayTimer := 432,
            wordDisplayShowingTranslation := false }
  else g

/-! ### Grid well-formedness

Every generated grid is 16 rows of 16 cells: the initial grid is a
16×16 replicate and every feature-placement step writes through
`setTile`, which preserves both dimensions.  This invariant makes the
`IndexError` branch of `Chunk.get_tile` unreachable (claim C10). -/

/-- A well-formed region grid: 16 rows of 16 cells each. -/
def dims16 (g : Grid) : Prop := g.length = 16 ∧ ∀ r ∈ g, r.length = 16

instance (g : Grid) : Decidable (dims16 g) := by
  unfold dims16
  exact instDecidableAnd

theorem dims16_setTile (g : Grid) (y x : Int) (c : CellType) (h : dims16 g) :
    dims16 (setTile g y x c) := by
  unfold setTile
  split
  · obtain ⟨hl, hr⟩ := h
    refine ⟨by simpa using hl, ?_⟩
    intro r hrm
    by_cases hy : y.toNat < g.length
    · rcases List.mem_or_eq_of_mem_set hrm with hm | he
      · exact hr r hm
      · subst he
        rw [List.length_set]
        have hmem : g.getD y.toNat [] ∈ g := by
          rw [List.getD_eq_getElem?_getD, List.getElem?_eq_getElem hy]
          exact List.getElem_mem hy
        exact hr _ hmem
    · rw [List.set_eq_of_length_le (Nat.le_of_not_lt hy)] at hrm
      exact hr r hrm
  · exact h

theorem foldl_dims16 {α : Type} (f : Grid × Nat → α → Grid × Nat)
    (hf : ∀ gs a, dims16 gs.1 → dims16 (f gs a).1) (l : List α) :
    ∀ gs, dims16 gs.1 → dims16 (List.foldl f gs l).1 := by
  induction l with
  | nil => intro gs h; exact h
  | cons a t ih => intro gs h; exact ih (f gs a) (hf gs a h)

theorem foldl_grid_dims16 {α : Type} (f : Grid → α → Grid)
    (hf : ∀ g a, dims16 g → dims16 (f g a)) (l : List α) :
    ∀ g, dims16 g → dims16 (List.foldl f g l) := by
  induction l with
  | nil => intro g h; exact h
  | cons a t ih => intro g h; exact ih (f g a) (hf g a h)

theorem dims16_setRow (g : Grid) (y : Int) (h : dims16 g) : dims16 (setRow g y) :=
  foldl_grid_dims16 _ (fun g2 a h2 => dims16_setTile g2 y (a : Int) .path h2) _ g h

theorem dims16_setCol (g : Grid) (x : Int) (h : dims16 g) : dims16 (setCol g x) :=
  foldl_grid_dims16 _ (fun g2 a h2 => dims16_setTile g2 (a : Int) x .path h2) _ g h

theorem dims16_generatePath (impl : RandomImpl) (g : Grid) (s : Nat) (h : dims16 g) :
    dims16 (generatePath impl g s).1 := by
  unfold generatePath
  dsimp only
  split
  · dsimp only
    refine dims16_setCol _ _ ?_
    split
    · dsimp only
      exact dims16_setRow _ _ h
    · exact h
  · split
    · dsimp only
      exact dims16_setRow _ _ h
    · exact h

theorem dims16_treeClusterStep (impl : RandomImpl) (cx cy r : Int)
    (gs : Grid × Nat) (y x : Int) (h : dims16 gs.1) :
    dims16 (treeClusterStep impl cx cy r gs y x).1 := by
  unfold treeClusterStep
  dsimp only [RandomImpl.randFloat]
  split
  · split
    · exact h
    · split
      · dsimp only
        exact dims16_setTile _ _ _ _ h
      · exact h
  · exact h

theorem dims16_boxFold (f : Grid × Nat → Int → Int → Grid × Nat)
    (hf : ∀ gs y x, dims16 gs.1 → dims16 (f gs y x).1) (gs : Grid × Nat)
    (h : dims16 gs.1) : dims16 (boxFold f gs).1 :=
  foldl_dims16 _
    (fun gs2 y h2 => foldl_dims16 _ (fun gs3 x h3 => hf gs3 (y : Int) (x : Int) h3) _ gs2 h2)
    _ gs h

theorem dims16_generateTrees (impl : RandomImpl) (g : Grid) (s : Nat) (h : dims16 g) :
    dims16 (generateTrees impl g s).1 := by
  unfold generateTrees
  dsimp only [RandomImpl.randint]
  apply foldl_dims16
  · intro gs a h2
    dsimp only
    apply dims16_boxFold
    · intro gs2 y x h3
      exact dims16_treeClusterStep _ _ _ _ _ _ _ h3
    · exact h2
  · exact h

theorem dims16_waterStep (impl : RandomImpl) (cx cy r : Int)
    (gs : Grid × Nat) (y x : Int) (h : dims16 gs.1) :
    dims16 (waterStep impl cx cy r gs y x).1 := by
  unfold waterStep
  dsimp only [RandomImpl.randFloat]
  split
  · split
    · dsimp only
      exact dims16_setTile _ _ _ _ h
    · exact h
  · exact h

theorem dims16_generateWater (impl : RandomImpl) (g : Grid) (s : Nat) (h : dims16 g) :
    dims16 (generateWater impl g s).1 := by
  unfold generateWater
  dsimp only [RandomImpl.randint]
  apply dims16_boxFold
  · intro gs y x h2
    exact dims16_waterStep _ _ _ _ _ _ _ h2
  · exact h

theorem dims16_flowerStep (impl : RandomImpl) (hx hy : Int)
    (gs : Grid × Nat) (d : Int × Int) (h : dims16 gs.1) :
    dims16 (flowerStep impl hx hy gs d).1 := by
  unfold flowerStep
  dsimp only [RandomImpl.randFloat]
  split
  · split
    · split
      · dsimp only
        exact dims16_setTile _ _ _ _ h
      · exact h
    · exact h
  · exact h

theorem dims16_houseAttempts (impl : RandomImpl) (fuel : Nat) :
    ∀ g s, dims16 g → dims16 (houseAttempts impl fuel g s).1 := by
  induction fuel with
  | zero => intro g s h; exact h
  | succ f ih =>
    intro g s h
    unfold houseAttempts
    dsimp only [RandomImpl.randint]
    split
    · apply foldl_dims16
      · intro gs d h2
        exact dims16_flowerStep _ _ _ _ _ h2
      · dsimp only
        exact dims16_setTile _ _ _ _ h
    · exact ih g _ h

theorem dims16_generateHouses (impl : RandomImpl) (g : Grid) (s : Nat) (h : dims16 g) :
    dims16 (generateHouses impl g s).1 := by
  unfold generateHouses
  dsimp only [RandomImpl.randint]
  apply foldl_dims16
  · intro gs a h2
    exact dims16_houseAttempts _ _ _ _ h2
  · exact h

theorem dims16_logAttempts (impl : RandomImpl) (fuel : Nat) :
    ∀ g s, dims16 g → dims16 (logAttempts impl fuel g s).1 := by
  induction fuel with
  | zero => intro g s h; exact h
  | succ f ih =>
    intro g s h
    unfold logAttempts
    dsimp only [RandomImpl.randint]
    split
    · dsimp only
      exact dims16_setTile _ _ _ _ h
    · exact ih g _ h

theorem dims16_grassAttempts (impl : RandomImpl) (c : CellType) (fuel : Nat) :
    ∀ g s, dims16 g → dims16 (grassAttempts impl c fuel g s).1 := by
  induction fuel with
  | zero => intro g s h; exact h
  | succ f ih =>
    intro g s h
    unfold grassAttempts
    dsimp only [RandomImpl.randint]
    split
    · dsimp only
      exact dims16_setTile _ _ _ _ h
    · exact ih g _ h

theorem dims16_generateForestElements (impl : RandomImpl) (g : Grid) (s : Nat)
    (h : dims16 g) : dims16 (generateForestElements impl g s).1 := by
  unfold generateForestElements
  dsimp only [RandomImpl.randint]
  apply foldl_dims16
  · intro gs a h2
    exact dims16_grassAttempts _ _ _ _ _ h2
  · dsimp only
    apply foldl_dims16
    · intro gs a h2
      exact dims16_logAttempts _ _ _ _ h2
    · exact h

theorem dims16_birdAttempts (impl : RandomImpl) (inTree : Bool) (fuel : Nat) :
    ∀ g s, dims16 g → dims16 (birdAttempts impl inTree fuel g s).1 := by
  induction fuel with
  | zero => intro g s h; exact h
  | succ f ih =>
    intro g s h
    unfold birdAttempts
    dsimp only [RandomImpl.randint]
    split
    · dsimp only
      exact dims16_setTile _ _ _ _ h
    · split
      · dsimp only
        exact dims16_setTile _ _ _ _ h
      · exact ih g _ h

theorem dims16_generateAnimals (impl : RandomImpl) (g : Grid) (s : Nat) (h : dims16 g) :
    dims16 (generateAnimals impl g s).1 := by
  unfold generateAnimals
  dsimp only [RandomImpl.randint, RandomImpl.randFloat]
  apply foldl_dims16
  · intro gs a h2
    dsimp only
    exact dims16_birdAttempts _ _ _ _ _ h2
  · dsimp only
    apply foldl_dims16
    · intro gs a h2
      exact dims16_grassAttempts _ _ _ _ _ h2
    · exact h

theorem dims16_stage (f : Grid → Nat → Grid × Nat)
    (hf : ∀ g2 s2, dims16 g2 → dims16 (f g2 s2).1)
    (c : Prop) [Decidable c] (g : Grid) (s : Nat) (h : dims16 g) :
    dims16 (if c then f g s else (g, s)).1 := by
  split
  · exact hf g s h
  · exact h

theorem dims16_generateFeatures (impl : RandomImpl) (cx cy : Int) (g : Grid) (s : Nat)
    (h : dims16 g) : dims16 (generateFeatures impl cx cy g s).1 := by
  unfold generateFeatures
  dsimp only
  exact dims16_stage _ (fun a b hh => dims16_generateAnimals impl a b hh) _ _ _
    (dims16_stage _ (fun a b hh => dims16_generateForestElements impl a b hh) _ _ _
      (dims16_stage _ (fun a b hh => dims16_generateHouses impl a b hh) _ _ _
        (dims16_stage _ (fun a b hh => dims16_generateWater impl a b hh) _ _ _
          (dims16_stage _ (fun a b hh => dims16_generateTrees impl a b hh) _ _ _
            (dims16_stage _ (fun a b hh => dims16_generatePath impl a b hh) _ _ _ h)))))

theorem dims16_replicate : dims16 (List.replicate CHUNK_SIZE (List.replicate CHUNK_SIZE CellType.grass)) := by
  refine ⟨by simp [CHUNK_SIZE], ?_⟩
  intro r hr
  rw [List.eq_of_mem_replicate hr]
  simp [CHUNK_SIZE]

theorem dims16_generateTiles (impl : RandomImpl) (cx cy : Int) (s : Nat) :
    dims16 (generateTiles impl cx cy s).1 := by
  unfold generateTiles
  dsimp only
  exact dims16_generateFeatures _ _ _ _ _ dims16_replicate

theorem dims16_chunkCreate (impl : RandomImpl) (cx cy : Int) :
    dims16 (Chunk.create impl cx cy).tiles :=
  dims16_generateTiles impl cx cy impl.entropy

/-! ### World cache facts -/

/-- Every cached chunk's grid is well-formed (16×16). -/
def WorldWF (w : World) : Prop := ∀ e ∈ w.chunks, dims16 e.2.tiles

instance (w : World) : Decidable (WorldWF w) := by
  unfold WorldWF
  exact List.decidableBAll _ _

theorem lookupChunk_mem {l : List ((Int × Int) × Chunk)} {k : Int × Int} {c : Chunk}
    (h : lookupChunk l k = some c) : ∃ e ∈ l, e.2 = c := by
  unfold lookupChunk at h
  cases hf : List.find? (fun e => e.1 == k) l with
  | none => rw [hf] at h; simp at h
  | some e =>
    rw [hf] at h
    simp at h
    exact ⟨e, List.mem_of_find?_eq_some hf, h⟩

theorem getChunk_dims16 (impl : RandomImpl) (w : World) (cx cy : Int) (hw : WorldWF w) :
    dims16 (w.getChunk impl cx cy).1.tiles := by
  unfold World.getChunk
  cases hf : lookupChunk w.chunks (cx, cy) with
  | none => exact dims16_chunkCreate impl cx cy
  | some c =>
    obtain ⟨e, hmem, he⟩ := lookupChunk_mem hf
    dsimp only
    rw [← he]
    exact hw e hmem

theorem getChunk_WF (impl : RandomImpl) (w : World) (cx cy : Int) (hw : WorldWF w) :
    WorldWF (w.getChunk impl cx cy).2 := by
  unfold World.getChunk
  cases hf : lookupChunk w.chunks (cx, cy) with
  | none =>
    intro e hmem
    rcases List.mem_cons.mp hmem with he | he
    · rw [he]; exact dims16_chunkCreate impl cx cy
    · exact hw e he
  | some c => exact hw

theorem getChunk_cached (impl : RandomImpl) (w : World) (cx cy : Int) :
    lookupChunk ((w.getChunk impl cx cy).2).chunks (cx, cy) =
      some (w.getChunk impl cx cy).1 := by
  unfold World.getChunk
  cases hf : lookupChunk w.chunks (cx, cy) with
  | none =>
    dsimp only
    unfold lookupChunk
    simp [List.find?]
  | some c => exact hf

/-- The bounds of `t % 16` for Python's floor modulo: always in `[0, 16)`,
for negative `t` as well. -/
theorem localOf_bounds (t : Int) : 0 ≤ localOf t ∧ localOf t < 16 := by
  unfold localOf
  rw [Int.fmod_eq_emod _ (by norm_num)]
  exact ⟨Int.emod_nonneg t (by norm_num), Int.emod_lt_of_pos t (by norm_num)⟩

/-- On a well-formed grid, the in-bounds branch of `Chunk.get_tile`
always finds a cell (the `IndexError` markers are unreachable). -/
theorem chunk_getTile_isSome (c : Chunk) (hd : dims16 c.tiles) (lx ly : Int)
    (hlx0 : 0 ≤ lx) (hlx1 : lx < 16) (hly0 : 0 ≤ ly) (hly1 : ly < 16) :
    ∃ cell, c.getTile lx ly = some cell := by
  unfold Chunk.getTile
  rw [if_pos ⟨hlx0, hlx1, hly0, hly1⟩]
  have hy : ly.toNat < c.tiles.length := by rw [hd.1]; omega
  rw [List.get?_eq_get hy]
  have hrow : c.tiles.get ⟨ly.toNat, hy⟩ ∈ c.tiles := List.get_mem _ _ _
  have hlen : (c.tiles.get ⟨ly.toNat, hy⟩).length = 16 := hd.2 _ hrow
  have hx : lx.toNat < (c.tiles.get ⟨ly.toNat, hy⟩).length := by rw [hlen]; omega
  rw [Option.some_bind, List.get?_eq_get hx]
  exact ⟨_, rfl⟩

/-- Looking a key up after writing it finds the written entry. -/
theorem ledger_find_store (l : Ledger) (k : Language × String) (v : WordEntry) :
    Ledger.find (Ledger.store l k v) k = some v := by
  induction l with
  | nil => simp [Ledger.store, Ledger.find, List.find?]
  | cons e rest ih =>
    unfold Ledger.store
    by_cases h : e.1 = k
    · simp [Ledger.find, List.find?, h]
    · have hb : (e.1 == k) = false := beq_eq_false_iff_ne.mpr h
      rw [if_neg (by simp [hb])]
      unfold Ledger.find at ih ⊢
      simp only [List.find?, hb]
      exact ih

/-- After filtering a key out of the cache, looking it up fails. -/
theorem find_filter_none (l : List ((Int × Int) × Chunk)) (k : Int × Int) :
    List.find? (fun e => e.1 == k) (l.filter (fun e => !(e.1 == k))) = none := by
  induction l with
  | nil => rfl
  | cons e rest ih =>
    rw [List.filter_cons]
    by_cases h : e.1 = k
    · simp only [h, beq_self_eq_true, Bool.not_true, if_neg]
      simp only [Bool.false_eq_true, if_false]
      exact ih
    · have hb : (e.1 == k) = false := beq_eq_false_iff_ne.mpr h
      simp only [hb, Bool.not_false, if_pos, List.find?, ih]

/-- A just-evicted region is no longer in the cache. -/
theorem lookup_evict (w : World) (cx cy : Int) :
    lookupChunk (w.evict cx cy).chunks (cx, cy) = none := by
  unfold World.evict lookupChunk
  dsimp only
  rw [find_filter_none]
  rfl

/-! ### Concrete fixtures

A concrete `RandomImpl` (a linear-congruential stand-in, since the
stdlib Mersenne Twister is external code) and small concrete worlds used
to evaluate the model at specific inputs. -/

def lcgImpl : RandomImpl :=
  { seedOf := fun x y => (x.natAbs * 1000003 + y.natAbs * 7919 + 12345) % 2147483647,
    entropy := 987654321,
    next := fun s => (s * 1103515245 + 12345) % 2147483648,
    out := fun s => s % 4294967296 }

/-- A cached chunk at region (0,0) whose grid is uniformly grass. -/
def grassChunk : Chunk :=
  { chunkX := 0, chunkY := 0,
    tiles := List.replicate 16 (List.replicate 16 CellType.grass), objects := [] }

/-- A world whose only cached region is the all-grass chunk at (0,0). -/
def grassWorld : World :=
  { chunks := [((0, 0), grassChunk)], activeChunks := [], renderDistance := 2 }

/-- A cached chunk at region (0,0) whose grid is uniformly water. -/
def waterChunk : Chunk :=
  { chunkX := 0, chunkY := 0,
    tiles := List.replicate 16 (List.replicate 16 CellType.water), objects := [] }

/-- A world whose only cached region is the all-water chunk at (0,0). -/
def waterWorld : World :=
  { chunks := [((0, 0), waterChunk)], activeChunks := [], renderDistance := 2 }

/-! ### Claim theorems -/

/-- Claim C1: region generation is deterministic.  `generate_tiles`
reseeds the global generator from the chunk coordinate alone, so the
grid is independent of the incoming generator state (hence of the order
and number of other generation calls), and regenerating a region after
evicting it from the cache reproduces the identical grid. -/
theorem c1_generation_deterministic (impl : RandomImpl) (cx cy : Int) (s1 s2 : Nat)
    (w : World) :
    (generateTiles impl cx cy s1).1 = (generateTiles impl cx cy s2).1 ∧
    ((w.evict cx cy).getChunk impl cx cy).1.tiles =
      ((((w.evict cx cy).getChunk impl cx cy).2.evict cx cy).getChunk impl cx cy).1.tiles := by
  constructor
  · rfl
  · simp only [World.getChunk, lookup_evict]

/-- Claim C2: the tile-to-region mapping is total on all integers:
floor division and floor modulo by 16 compose back to the tile
coordinate, the local coordinate always lies in `[0, 16)`, and tile
`(-1, -1)` resolves to region `(-1, -1)` with local `(15, 15)`. -/
theorem c2_tile_region_mapping (tx ty : Int) :
    16 * regionOf tx + localOf tx = tx ∧
    16 * regionOf ty + localOf ty = ty ∧
    (0 ≤ localOf tx ∧ localOf tx < 16) ∧ (0 ≤ localOf ty ∧ localOf ty < 16) ∧
    regionOf (-1) = -1 ∧ localOf (-1) = 15 := by
  have comp : ∀ t : Int, 16 * regionOf t + localOf t = t := by
    intro t
    unfold regionOf localOf
    rw [Int.fdiv_eq_ediv _ (by norm_num), Int.fmod_eq_emod _ (by norm_num)]
    exact Int.ediv_add_emod t 16
  exact ⟨comp tx, comp ty, localOf_bounds tx, localOf_bounds ty, by decide, by decide⟩

/-- Claim C3: the reveal operation on the ledger.  First reveal creates
an entry with one view, unmastered, and +10 score; a later reveal
increments the view count, masters the entry with +50 when the count
reaches 5 while unmastered, awards +2 while unmastered below the
threshold, and awards nothing once mastered; five reveals from scratch
master the entry exactly on the fifth call. -/
theorem c3_reveal_ledger (p : Player) (t : CellType) (lang : Language) :
    (Ledger.find p.wordsLearned (lang, t.name) = none →
      Ledger.find ((p.learnWord t lang).1.wordsLearned) (lang, t.name) =
        some { word := t.label lang, english := t.english, views := 1, mastered := false } ∧
      (p.learnWord t lang).2.views = 1 ∧ (p.learnWord t lang).2.mastered = false ∧
      (p.learnWord t lang).1.score = p.score + 10) ∧
    (∀ e0, Ledger.find p.wordsLearned (lang, t.name) = some e0 →
      (p.learnWord t lang).2.views = e0.views + 1 ∧
      Ledger.find ((p.learnWord t lang).1.wordsLearned) (lang, t.name) =
        some (p.learnWord t lang).2 ∧
      (e0.mastered = false → e0.views + 1 ≥ 5 →
        (p.learnWord t lang).2.mastered = true ∧
        (p.learnWord t lang).1.score = p.score + 50) ∧
      (e0.mastered = false → e0.views + 1 < 5 →
        (p.learnWord t lang).2.mastered = false ∧
        (p.learnWord t lang).1.score = p.score + 2) ∧
      (e0.mastered = true →
        (p.learnWord t lang).2.mastered = true ∧
        (p.learnWord t lang).1.score = p.score)) ∧
    (Ledger.find p.wordsLearned (lang, t.name) = none →
      (Ledger.find ((p.learnWordN t lang 5).wordsLearned) (lang, t.name)).map
          WordEntry.mastered = some true ∧
      (Ledger.find ((p.learnWordN t lang 4).wordsLearned) (lang, t.name)).map
          WordEntry.mastered = some false) := by
  refine ⟨?_, ?_, ?_⟩
  · intro hnone
    simp [Player.learnWord, hnone, ledger_find_store]
  · intro e0 hsome
    unfold Player.learnWord
    dsimp only
    rw [hsome]
    dsimp only
    by_cases hm : e0.mastered = true
    · rw [if_neg (by simp [hm]), if_neg (by simp [hm])]
      refine ⟨rfl, by simp [ledger_find_store], by simp [hm], by simp [hm], ?_⟩
      intro hm2
      exact ⟨by simp [hm], rfl⟩
    · have hm0 : e0.mastered = false := by simpa using hm
      by_cases hv : e0.views + 1 ≥ 5
      · rw [if_pos ⟨hv, hm0⟩]
        refine ⟨rfl, by simp [ledger_find_store], fun _ _ => ⟨rfl, rfl⟩, ?_, ?_⟩
        · intro _ hv2; omega
        · intro hm2; rw [hm2] at hm0; exact absurd hm0 (by simp)
      · rw [if_neg (by simp [hv]), if_pos hm0]
        refine ⟨rfl, by simp [ledger_find_store], ?_, fun _ _ => ⟨hm0, rfl⟩, ?_⟩
        · intro _ hv2; omega
        · intro hm2; rw [hm2] at hm0; exact absurd hm0 (by simp)
  · intro hnone
    simp [Player.learnWordN, Player.learnWord, hnone, ledger_find_store]

/-- Witness for C3 at a concrete input: five reveals of tree/spanish
from a fresh player master the entry exactly on the fifth call. -/
theorem c3_reveal_ledger_witness :
    Ledger.find (Player.init 0 0).wordsLearned (Language.spanish, CellType.tree.name)
        = none ∧
    (Ledger.find ((Player.init 0 0).learnWordN .tree .spanish 5).wordsLearned
        (Language.spanish, CellType.tree.name)).map WordEntry.mastered = some true ∧
    (Ledger.find ((Player.init 0 0).learnWordN .tree .spanish 4).wordsLearned
        (Language.spanish, CellType.tree.name)).map WordEntry.mastered = some false :=
  ⟨rfl, ((c3_reveal_ledger (Player.init 0 0) .tree .spanish).2.2 rfl).1,
    ((c3_reveal_ledger (Player.init 0 0) .tree .spanish).2.2 rfl).2⟩

/-- Claim C4 counterexample.  The claim's facing clause — "the facing
direction still updates according to the requested delta" — is false of
the post-move state: `move` ends with `update_interaction_target`
(line 401), whose `get_facing_tile_position` overwrites the facing from
the pointer (lines 648-658).  Here a blocked rightward move (dx = 3)
with the pointer above the player leaves the actor facing up, not
right, even though position, tile and chunk are indeed unchanged. -/
theorem c4_move_commit_counterexample :
    (waterWorld.isTilePassable lcgImpl 0 0).1 = false ∧
    ((Player.init 0 0).move lcgImpl 3 0 waterWorld false 16 (-100)).1.x = 0 ∧
    ((Player.init 0 0).move lcgImpl 3 0 waterWorld false 16 (-100)).1.y = 0 ∧
    ((Player.init 0 0).move lcgImpl 3 0 waterWorld false 16 (-100)).1.direction
        = Dir.up ∧
    Dir.up ≠ Dir.right := by
  refine ⟨?_, ?_, ?_, ?_, ?_⟩ <;> decide

/-- Claim C4 amended: movement commits only on a passable combined
destination — the single passability test is at the combined tentative
tile, so diagonal steps are one combined test, not per-axis — and a
failed test leaves position and the derived tile/chunk coordinates
untouched.  The facing, however, does not end up following the
requested delta: the delta-based update of lines 367-375 is transient,
overwritten by the trailing `update_interaction_target`, so the
post-move facing is derived from the pointer's offset to the
(post-commit) actor center. -/
theorem c4_move_commit (impl : RandomImpl) (p : Player) (dx dy : Int) (w : World)
    (sprint : Bool) (mouseX mouseY : Int) :
    ((w.isTilePassable impl ((p.x + dx).fdiv 32) ((p.y + dy).fdiv 32)).1 = false →
      (p.move impl dx dy w sprint mouseX mouseY).1.x = p.x ∧
      (p.move impl dx dy w sprint mouseX mouseY).1.y = p.y ∧
      (p.move impl dx dy w sprint mouseX mouseY).1.tileX = p.tileX ∧
      (p.move impl dx dy w sprint mouseX mouseY).1.tileY = p.tileY ∧
      (p.move impl dx dy w sprint mouseX mouseY).1.chunkX = p.chunkX ∧
      (p.move impl dx dy w sprint mouseX mouseY).1.chunkY = p.chunkY) ∧
    ((w.isTilePassable impl ((p.x + dx).fdiv 32) ((p.y + dy).fdiv 32)).1 = true →
      (p.move impl dx dy w sprint mouseX mouseY).1.x = p.x + dx ∧
      (p.move impl dx dy w sprint mouseX mouseY).1.y = p.y + dy ∧
      (p.move impl dx dy w sprint mouseX mouseY).1.tileX = (p.x + dx).fdiv 32 ∧
      (p.move impl dx dy w sprint mouseX mouseY).1.tileY = (p.y + dy).fdiv 32) ∧
    (p.move impl dx dy w sprint mouseX mouseY).1.direction =
      pointerDirection
        (mouseX + p.cameraOffsetX -
          ((p.move impl dx dy w sprint mouseX mouseY).1.x + 16))
        (mouseY + p.cameraOffsetY -
          ((p.move impl dx dy w sprint mouseX mouseY).1.y + 16)) := by
  refine ⟨?_, ?_, ?_⟩
  · intro h
    simp [Player.move, Player.updateInteractionTarget, Player.getFacingTilePosition, h]
  · intro h
    simp [Player.move, Player.updateInteractionTarget, Player.getFacingTilePosition, h]
  · unfold Player.move Player.updateInteractionTarget Player.getFacingTilePosition
    dsimp only
    split
    · rfl
    · rfl

/-- Witness for the amended C4 at a concrete input: a player at the
origin moving (3, 0) towards the cached all-water tile (0, 0) keeps its
position and tile coordinate, and its facing follows the pointer (here
above the player: up). -/
theorem c4_move_commit_witness :
    (waterWorld.isTilePassable lcgImpl ((0 + 3 : Int).fdiv 32) ((0 + 0 : Int).fdiv 32)).1
        = false ∧
    ((Player.init 0 0).move lcgImpl 3 0 waterWorld false 16 (-100)).1.x = 0 ∧
    ((Player.init 0 0).move lcgImpl 3 0 waterWorld false 16 (-100)).1.tileX = 0 ∧
    ((Player.init 0 0).move lcgImpl 3 0 waterWorld false 16 (-100)).1.direction
        = Dir.up := by
  have h := c4_move_commit lcgImpl (Player.init 0 0) 3 0 waterWorld false 16 (-100)
  have hp : (waterWorld.isTilePassable lcgImpl (((Player.init 0 0).x + 3).fdiv 32)
      (((Player.init 0 0).y + 0).fdiv 32)).1 = false := by decide
  have h1 := h.1 hp
  exact ⟨hp, h1.1, by rw [h1.2.2.1]; decide, by rw [h.2.2]; decide⟩

/-- Claim C5 counterexample.  The claim predicts the facing from the
dominant requested delta with ties leaving it unchanged; in the code
the post-move facing is pointer-derived (`update_interaction_target` at
line 401 overwrites the transient delta-based update).  With the
pointer above the player, the tied request (3, 3) from a downward-facing
player ends facing up (claim: unchanged, i.e. down); with the pointer
far below, the request (3, -5) — dominant `dy` negative, claim: up —
ends facing down. -/
theorem c5_facing_counterexample :
    (Player.init 0 64).direction = Dir.down ∧
    ((Player.init 0 64).move lcgImpl 3 3 grassWorld false 16 (-100)).1.direction
        = Dir.up ∧
    ((Player.init 0 64).move lcgImpl 3 (-5) grassWorld false 16 1000).1.direction
        = Dir.down := by
  refine ⟨rfl, ?_, ?_⟩ <;> decide

/-- Claim C5 amended: the delta-based facing update inside `move`
(dx-priority, lines 367-375) is transient; the trailing
`update_interaction_target` overwrites it, so the facing a move call
leaves behind is computed from the pointer's offset to the post-move
actor center — right/left by sign when the x-offset strictly dominates
in magnitude, otherwise down for a positive y-offset and up for
anything else — independent of the requested deltas, and neither ties
nor zero deltas leave it unchanged in general. -/
theorem c5_facing_amended (impl : RandomImpl) (p : Player) (dx dy : Int) (w : World)
    (sprint : Bool) (mouseX mouseY : Int) :
    (p.move impl dx dy w sprint mouseX mouseY).1.direction =
      pointerDirection
        (mouseX + p.cameraOffsetX -
          ((p.move impl dx dy w sprint mouseX mouseY).1.x + 16))
        (mouseY + p.cameraOffsetY -
          ((p.move impl dx dy w sprint mouseX mouseY).1.y + 16)) := by
  unfold Player.move Player.updateInteractionTarget Player.getFacingTilePosition
  dsimp only
  split
  · rfl
  · rfl

/-- Claim C6 counterexample.  The `mastered` flag on an entity is an
independently stored boolean, not a read-through projection: a freshly
created entity carries `mastered = false` even when the ledger entry
for its type is already mastered (here: after five reveals of
tree/spanish), and after `draw` syncs it to `true` it stays `true` for
the ledger of another language where nothing is mastered. -/
theorem c6_mastered_counterexample :
    ledgerMastered ((Player.init 0 0).learnWordN .tree .spanish 5).wordsLearned
        .spanish CellType.tree.name = true ∧
    (GameObject.init 0 0 .tree 0).mastered = false ∧
    ((GameObject.init 0 0 .tree 0).drawMasteredUpdate .spanish
        ((Player.init 0 0).learnWordN .tree .spanish 5).wordsLearned).mastered = true ∧
    ledgerMastered ((Player.init 0 0).learnWordN .tree .spanish 5).wordsLearned
        .french CellType.tree.name = false := by
  refine ⟨?_, rfl, ?_, ?_⟩ <;> decide

/-- Claim C6 amended: the entity flag is a stored value — initialized
`false` at creation and only lazily raised to `true` by the draw-time
sync when the current language's ledger entry is mastered (never
reset) — so it can lag the ledger; the draw-time display state itself
is computed read-through from the ledger. -/
theorem c6_mastered_amended (x y : Int) (t : CellType) (v : Nat) (o : GameObject)
    (lang : Language) (l : Ledger) :
    (GameObject.init x y t v).mastered = false ∧
    (o.drawMasteredUpdate lang l).mastered =
      (o.mastered || ledgerMastered l lang o.objType.name) ∧
    (o.drawMasteredUpdate lang l).revealed = o.revealed ∧
    (o.drawMasteredUpdate lang l).translationShown = o.translationShown ∧
    (o.drawMasteredUpdate lang l).objType = o.objType := by
  refine ⟨rfl, ?_, ?_, ?_, ?_⟩ <;>
    · unfold GameObject.drawMasteredUpdate
      split <;> simp_all

/-- The parse result of an empty JSON object: every key missing. -/
def emptyRawSave : RawSave :=
  { score := none, wordsLearned := none, posX := none, posY := none,
    settingsLanguage := none }

/-- Claim C7 counterexample: a parseable save file missing the required
`score` (and `words_learned`) keys does not fall back to the fresh
default — the uncaught `KeyError` propagates out of `load_progress`. -/
theorem c7_load_counterexample :
    Game.loadProgress (.parsed emptyRawSave) = .error .keyError ∧
    Game.loadProgress (.parsed emptyRawSave) ≠ .ok freshLoadResult := by
  refine ⟨rfl, ?_⟩
  intro h
  exact Except.noConfusion h

/-- Claim C7 amended: loading recovers to the fresh default state when
the file is missing or its content is not valid JSON, and missing
`position` or `settings.language` fields individually default (origin,
spanish); but a parse-valid save lacking `score` or `words_learned`
raises an uncaught `KeyError` instead of recovering. -/
theorem c7_load_amended :
    Game.loadProgress .missing = .ok freshLoadResult ∧
    Game.loadProgress .invalidJson = .ok freshLoadResult ∧
    (∀ d : RawSave, d.score = none → Game.loadProgress (.parsed d) = .error .keyError) ∧
    (∀ d : RawSave, ∀ sc, d.score = some sc → d.wordsLearned = none →
      Game.loadProgress (.parsed d) = .error .keyError) ∧
    (∀ sc led lang,
      Game.loadProgress (.parsed (RawSave.mk (some sc) (some led) none none lang)) =
        .ok (LoadResult.mk
          { Player.init 0 0 with score := sc, wordsLearned := led }
          (lang.getD .spanish))) := by
  refine ⟨rfl, rfl, ?_, ?_, ?_⟩
  · intro d h
    obtain ⟨ds, dw, dpx, dpy, dl⟩ := d
    dsimp only at h
    subst h
    rfl
  · intro d sc h1 h2
    obtain ⟨ds, dw, dpx, dpy, dl⟩ := d
    dsimp only at h1 h2
    subst h1
    subst h2
    rfl
  · intro sc led lang
    rfl

/-- Witness for the amended C7 at concrete inputs. -/
theorem c7_load_amended_witness :
    emptyRawSave.score = none ∧
    Game.loadProgress (.parsed emptyRawSave) = .error .keyError ∧
    Game.loadProgress .missing = .ok freshLoadResult :=
  ⟨rfl, c7_load_amended.2.2.1 _ rfl, c7_load_amended.1⟩

/-- Claim C8: `get_object_at_tile` resolves the owning region only
among already-materialized regions (the definition reads the cache and
returns, never calling `get_chunk`, so it cannot generate); a
non-materialized region yields `none` (absence, not an error), and a
materialized one is resolved by a linear scan of its entity list, any
hit lying exactly at the queried tile. -/
theorem c8_object_lookup (w : World) (tx ty : Int) :
    (lookupChunk w.chunks (regionOf tx, regionOf ty) = none →
      w.getObjectAtTile tx ty = none) ∧
    (∀ c, lookupChunk w.chunks (regionOf tx, regionOf ty) = some c →
      w.getObjectAtTile tx ty =
        c.objects.find? (fun o => o.getTilePosition == (tx, ty))) ∧
    (∀ o, w.getObjectAtTile tx ty = some o → o.getTilePosition = (tx, ty)) := by
  refine ⟨?_, ?_, ?_⟩
  · intro h
    unfold World.getObjectAtTile
    rw [h]
  · intro c h
    unfold World.getObjectAtTile
    rw [h]
  · intro o ho
    unfold World.getObjectAtTile at ho
    cases hl : lookupChunk w.chunks (regionOf tx, regionOf ty) with
    | none =>
      rw [hl] at ho
      exact Option.noConfusion ho
    | some c =>
      rw [hl] at ho
      dsimp only at ho
      have hb := List.find?_some ho
      exact eq_of_beq hb

/-- Witness for C8 at a concrete input: with an empty cache the lookup
is absent. -/
theorem c8_object_lookup_witness :
    lookupChunk World.initial.chunks (regionOf 5, regionOf 7) = none ∧
    World.initial.getObjectAtTile 5 7 = none :=
  ⟨rfl, (c8_object_lookup World.initial 5 7).1 rfl⟩

/-- Claim C9: a click whose world position is farther from the player
center than the interaction range leaves the whole game state — world,
entity flags, ledger, score and display state — unchanged. -/
theorem c9_interaction_range_noop (g : Game) (mouseX mouseY : Int)
    (h : (mouseX + g.cameraX - (g.player.x + 16)) ^ 2 +
        (mouseY + g.cameraY - (g.player.y + 16)) ^ 2 > g.player.interactionRange ^ 2) :
    g.handleMouseInteraction mouseX mouseY = g := by
  unfold Game.handleMouseInteraction
  dsimp only
  rw [if_neg (not_le.mpr h)]

/-- A concrete game state over the empty world. -/
def fixtureGame : Game :=
  { world := World.initial, player := Player.init 0 0, targetLanguage := .spanish,
    currentWordData := none, showWordDisplay := false, wordDisplayTimer := 0,
    wordDisplayShowingTranslation := false, cameraX := 0, cameraY := 0 }

/-- Witness for C9 at a concrete input: a click at (1000, 1000), far
beyond the 150-pixel range, is a no-op. -/
theorem c9_interaction_range_noop_witness :
    ((1000 : Int) + fixtureGame.cameraX - (fixtureGame.player.x + 16)) ^ 2 +
        ((1000 : Int) + fixtureGame.cameraY - (fixtureGame.player.y + 16)) ^ 2 >
      fixtureGame.player.interactionRange ^ 2 ∧
    fixtureGame.handleMouseInteraction 1000 1000 = fixtureGame :=
  ⟨by decide, c9_interaction_range_noop fixtureGame 1000 1000 (by decide)⟩

/-- Claim C10: on a well-formed world the tile lookup is total — the
owning region is materialized on demand and stays cached, the local
coordinates are always in range of the 16×16 grid, the lookup always
returns a cell, and `is_tile_passable` returns that cell's `passable`
attribute (its fail-safe `False` branch is unreachable); well-formedness
is preserved. -/
theorem c10_tile_lookup_total (impl : RandomImpl) (w : World) (tx ty : Int)
    (hw : WorldWF w) :
    (∃ cell, (w.getTile impl tx ty).1 = some cell ∧
      (w.isTilePassable impl tx ty).1 = cell.passable) ∧
    (0 ≤ localOf tx ∧ localOf tx < 16 ∧ 0 ≤ localOf ty ∧ localOf ty < 16) ∧
    lookupChunk ((w.getTile impl tx ty).2).chunks (regionOf tx, regionOf ty) ≠ none ∧
    WorldWF (w.getTile impl tx ty).2 := by
  have hb1 := localOf_bounds tx
  have hb2 := localOf_bounds ty
  have hd := getChunk_dims16 impl w (regionOf tx) (regionOf ty) hw
  obtain ⟨cell, hcell⟩ :=
    chunk_getTile_isSome _ hd (localOf tx) (localOf ty) hb1.1 hb1.2 hb2.1 hb2.2
  refine ⟨⟨cell, ?_, ?_⟩, ⟨hb1.1, hb1.2, hb2.1, hb2.2⟩, ?_, ?_⟩
  · unfold World.getTile
    dsimp only
    exact hcell
  · unfold World.isTilePassable World.getTile
    dsimp only
    rw [hcell]
  · unfold World.getTile
    dsimp only
    rw [getChunk_cached]
    exact fun hcon => Option.noConfusion hcon
  · unfold World.getTile
    dsimp only
    exact getChunk_WF impl w _ _ hw

/-- Witness for C10 at a concrete input: the all-grass world is
well-formed and the lookup at tile (4, 4) resolves. -/
theorem c10_tile_lookup_total_witness :
    WorldWF grassWorld ∧ (grassWorld.getTile lcgImpl 4 4).1 ≠ none := by
  have h := c10_tile_lookup_total lcgImpl grassWorld 4 4 (by decide)
  obtain ⟨⟨cell, hc, _⟩, _, _, _⟩ := h
  refine ⟨by decide, ?_⟩
  rw [hc]
  exact fun hcon => Option.noConfusion hcon

end LangGame
